import Mathlib

/-!
Verification of the subcommand-resolution and dispatch logic of the `status`
builtin (src/builtins/status.cpp).  Pure functions of the source are
transcribed directly; the handful of collaborators living outside this file
(wgetopt, enum_map.h helpers, fish_wcstoi, builtin helper error printers) are
modelled from the design document and marked as such in their doc comments.
-/

namespace StatusBuiltin

/-- The `status_cmd_t` enumeration (status.cpp lines 28–50). -/
inductive status_cmd_t
  | STATUS_CURRENT_CMD
  | STATUS_BASENAME
  | STATUS_DIRNAME
  | STATUS_FEATURES
  | STATUS_FILENAME
  | STATUS_FISH_PATH
  | STATUS_FUNCTION
  | STATUS_IS_BLOCK
  | STATUS_IS_BREAKPOINT
  | STATUS_IS_COMMAND_SUB
  | STATUS_IS_FULL_JOB_CTRL
  | STATUS_IS_INTERACTIVE
  | STATUS_IS_INTERACTIVE_JOB_CTRL
  | STATUS_IS_LOGIN
  | STATUS_IS_NO_JOB_CTRL
  | STATUS_LINE_NUMBER
  | STATUS_SET_JOB_CONTROL
  | STATUS_STACK_TRACE
  | STATUS_TEST_FEATURE
  | STATUS_CURRENT_COMMANDLINE
  | STATUS_UNDEF
  deriving DecidableEq, Repr

open status_cmd_t

/-- The `job_control_t` enumeration (proc.h). -/
inductive job_control_t
  | all
  | interactive
  | none
  deriving DecidableEq, Repr

/-- The `status_enum_map` table (status.cpp lines 53–80).  The C array's
terminating `{STATUS_UNDEF, nullptr}` sentinel is represented by the end of
the Lean list. -/
def status_enum_map : List (status_cmd_t × String) :=
  [(STATUS_BASENAME, "basename"),
   (STATUS_BASENAME, "current-basename"),
   (STATUS_CURRENT_CMD, "current-command"),
   (STATUS_CURRENT_COMMANDLINE, "current-commandline"),
   (STATUS_DIRNAME, "current-dirname"),
   (STATUS_FILENAME, "current-filename"),
   (STATUS_FUNCTION, "current-function"),
   (STATUS_LINE_NUMBER, "current-line-number"),
   (STATUS_DIRNAME, "dirname"),
   (STATUS_FEATURES, "features"),
   (STATUS_FILENAME, "filename"),
   (STATUS_FISH_PATH, "fish-path"),
   (STATUS_FUNCTION, "function"),
   (STATUS_IS_BLOCK, "is-block"),
   (STATUS_IS_BREAKPOINT, "is-breakpoint"),
   (STATUS_IS_COMMAND_SUB, "is-command-substitution"),
   (STATUS_IS_FULL_JOB_CTRL, "is-full-job-control"),
   (STATUS_IS_INTERACTIVE, "is-interactive"),
   (STATUS_IS_INTERACTIVE_JOB_CTRL, "is-interactive-job-control"),
   (STATUS_IS_LOGIN, "is-login"),
   (STATUS_IS_NO_JOB_CTRL, "is-no-job-control"),
   (STATUS_SET_JOB_CONTROL, "job-control"),
   (STATUS_LINE_NUMBER, "line-number"),
   (STATUS_STACK_TRACE, "print-stack-trace"),
   (STATUS_STACK_TRACE, "stack-trace"),
   (STATUS_TEST_FEATURE, "test-feature")]

/-- Modelled from the spec: `str_to_enum` (enum_map.h, not under src/) is the
Alias Registry's exact-match lookup — "Returns the canonical Action for an
exact string match; returns `Undefined` if no entry matches."  (The C
implementation is a binary search over the sorted table; under the table's
sortedness and name-uniqueness invariants that coincides with first-match
lookup.) -/
def str_to_enum (s : String) : status_cmd_t :=
  match status_enum_map.find? (fun e => e.2 = s) with
  | Option.some e => e.1
  | Option.none => STATUS_UNDEF

/-- Modelled from the spec: `enum_to_str` (enum_map.h, not under src/) maps an
action back to its canonical display name — the name of the first table entry
carrying that value, `none` when the table has no entry (only `STATUS_UNDEF`). -/
def enum_to_str (c : status_cmd_t) : Option String :=
  (status_enum_map.find? (fun e => e.1 = c)).map (fun e => e.2)

/-- Structured stand-ins for the formatted error-stream messages the builtin
emits; each constructor records the format string's arguments. -/
inductive ErrMsg
  /-- `BUILTIN_ERR_COMBO2_EXCLUSIVE` with the two display names from
  `enum_to_str` (status.cpp lines 146–148). -/
  | comboExclusive (cmd : String) (a b : Option String)
  /-- `BUILTIN_ERR_INVALID_SUBCMD` (status.cpp line 311). -/
  | invalidSubcmd (cmd tok : String)
  /-- "Invalid job control mode '%ls'" (status.cpp line 104). -/
  | invalidJobMode (cmd tok : String)
  /-- "Invalid level value '%ls'" (status.cpp line 202). -/
  | invalidLevel (cmd tok : String)
  /-- `BUILTIN_ERR_NOT_NUMBER` (status.cpp line 206). -/
  | notANumber (cmd tok : String)
  /-- `BUILTIN_ERR_ARG_COUNT2`: command, subcommand display name, expected
  count, actual count (status.cpp lines 87, 344, 365). -/
  | argCount2 (cmd sub : String) (expected actual : Nat)
  /-- `builtin_missing_argument` (status.cpp line 269). -/
  | missingOptArg (cmd tok : String)
  /-- `builtin_unknown_option` (status.cpp line 273). -/
  | unknownOption (cmd tok : String)
  /-- "Could not get executable path" (status.cpp line 475). -/
  | couldNotGetPath (cmd : String)
  /-- `DIE("unexpected retval from wgetopt_long")` (status.cpp line 277);
  unreachable for events the scanner actually produces. -/
  | internalDie
  deriving DecidableEq, Repr

/-- Exit-status constant `STATUS_CMD_OK` (builtin.h). -/
def STATUS_CMD_OK : Int := 0
/-- Exit-status constant `STATUS_CMD_ERROR` (builtin.h). -/
def STATUS_CMD_ERROR : Int := 1
/-- Exit-status constant `STATUS_INVALID_ARGS` (builtin.h). -/
def STATUS_INVALID_ARGS : Int := 2

/-- `job_control_str_to_mode` (status.cpp lines 95–106): the mode together
with the error-stream messages appended. -/
def job_control_str_to_mode (mode : String) (cmd : String) :
    Option job_control_t × List ErrMsg :=
  if mode = "full" then (Option.some job_control_t.all, [])
  else if mode = "interactive" then (Option.some job_control_t.interactive, [])
  else if mode = "none" then (Option.some job_control_t.none, [])
  else (Option.none, [ErrMsg.invalidJobMode cmd mode])

/-- Outcome of integer conversion: `errno` after the call. -/
inductive ConvErr
  | ok
  | einval
  | erange
  deriving DecidableEq, Repr

/-- Modelled from the spec: `fish_wcstoi` (wutil, not under src/) — "must
parse as a non-negative integer; a negative or non-numeric value is a distinct
error".  An optional sign followed by decimal digits parses to its value
(clamped with ERANGE outside the `int` range); any other string yields 0 with
EINVAL. -/
def fish_wcstoi (s : String) : Int × ConvErr :=
  let cs := s.data
  let neg : Bool := match cs with | c :: _ => c = '-' | [] => false
  let body := match cs with
    | c :: rest => if c = '-' ∨ c = '+' then rest else cs
    | [] => []
  if body.isEmpty ∨ ¬ body.all (fun c => c.isDigit) then
    (0, ConvErr.einval)
  else
    let n : Int := Int.ofNat (body.foldl (fun acc c => acc * 10 + (c.toNat - 48)) 0)
    let v : Int := if neg then -n else n
    if v > 2147483647 then (2147483647, ConvErr.erange)
    else if v < -2147483648 then (-2147483648, ConvErr.erange)
    else (v, ConvErr.ok)

/-- An option event as delivered by `wgetopt_long` to the scanning loop of
`parse_cmd_opts`: a short-option character (possibly with its argument), one
of the four long options whose table value is the enum itself, or the `':'` /
`'?'` error returns carrying the offending token `argv[woptind - 1]`. -/
inductive OptEvent
  | shortOpt (c : Char) (arg : Option String)
  | longSub (a : status_cmd_t)
  | missingArg (tok : String)
  | unknownOpt (tok : String)
  deriving DecidableEq, Repr

/-- The value column of a `woption` row: either a short-option character or a
`status_cmd_t` value (status.cpp long_options, lines 122–140). -/
inductive OptVal
  | vch (c : Char)
  | vsub (a : status_cmd_t)
  deriving DecidableEq, Repr

/-- `short_options = ":L:cbilfnhj:t"` (status.cpp line 121), transliterated as
(character, takes-required-argument) pairs; the leading `':'` selects the
`':'`-for-missing-argument reporting convention. -/
def short_options : List (Char × Bool) :=
  [('L', true), ('c', false), ('b', false), ('i', false), ('l', false),
   ('f', false), ('n', false), ('h', false), ('j', true), ('t', false)]

/-- The `long_options` table (status.cpp lines 122–140): name,
takes-required-argument, value. -/
def long_options : List (String × Bool × OptVal) :=
  [("help", false, OptVal.vch 'h'),
   ("current-filename", false, OptVal.vch 'f'),
   ("current-line-number", false, OptVal.vch 'n'),
   ("filename", false, OptVal.vch 'f'),
   ("fish-path", false, OptVal.vsub STATUS_FISH_PATH),
   ("is-block", false, OptVal.vch 'b'),
   ("is-command-substitution", false, OptVal.vch 'c'),
   ("is-full-job-control", false, OptVal.vsub STATUS_IS_FULL_JOB_CTRL),
   ("is-interactive", false, OptVal.vch 'i'),
   ("is-interactive-job-control", false, OptVal.vsub STATUS_IS_INTERACTIVE_JOB_CTRL),
   ("is-login", false, OptVal.vch 'l'),
   ("is-no-job-control", false, OptVal.vsub STATUS_IS_NO_JOB_CTRL),
   ("job-control", true, OptVal.vch 'j'),
   ("level", true, OptVal.vch 'L'),
   ("line", false, OptVal.vch 'n'),
   ("line-number", false, OptVal.vch 'n'),
   ("print-stack-trace", false, OptVal.vch 't')]

/-- Does the string begin with `"--"`? -/
def beginsDashDash (t : String) : Bool :=
  match t.data with
  | '-' :: '-' :: _ => true
  | _ => false

/-- Does the string begin with `"-"`? -/
def beginsDash (t : String) : Bool :=
  match t.data with
  | '-' :: _ => true
  | _ => false

/-- Split a `--name=value` long-option body at the first `'='`. -/
def splitEq (body : String) : String × Option String :=
  let cs := body.data
  let name := cs.takeWhile (fun c => c ≠ '=')
  match cs.dropWhile (fun c => c ≠ '=') with
  | [] => (String.mk name, Option.none)
  | _ :: tail => (String.mk name, Option.some (String.mk tail))

/-- Turn an `OptVal` with resolved argument into the event `wgetopt_long`
reports. -/
def valToEvent (v : OptVal) (arg : Option String) : OptEvent :=
  match v with
  | OptVal.vch c => OptEvent.shortOpt c arg
  | OptVal.vsub a => OptEvent.longSub a

/-- Modelled from the spec: scanning of one cluster of short options such as
`-lL3` (wgetopt.cpp is not under src/).  Each character is looked up in
`short_options`; a value-taking option consumes the rest of the cluster or
the next word; an unknown character or a missing value is reported with the
whole token, as `argv[woptind - 1]` does. -/
def lexShort (tok : String) (cs : List Char) (next : Option String) :
    List OptEvent × Bool :=
  match cs with
  | [] => ([], false)
  | c :: cs' =>
    match short_options.find? (fun p => p.1 = c) with
    | Option.none =>
      let (evs, u) := lexShort tok cs' next
      (OptEvent.unknownOpt tok :: evs, u)
    | Option.some p =>
      if p.2 then
        if cs'.isEmpty then
          match next with
          | Option.none => ([OptEvent.missingArg tok], false)
          | Option.some v => ([OptEvent.shortOpt c (Option.some v)], true)
        else
          ([OptEvent.shortOpt c (Option.some (String.mk cs'))], false)
      else
        let (evs, u) := lexShort tok cs' next
        (OptEvent.shortOpt c Option.none :: evs, u)

/-- Modelled from the spec: the Option Scanner's tokenisation (wgetopt.cpp is
not under src/).  "Scanning stops at the first non-flag token or end of
input"; `--` terminates scanning; `--name[=value]` is matched exactly against
`long_options`; `-abc` is a cluster of short options.  Produces the events
`parse_cmd_opts`'s loop consumes, plus the leftover (positional) words.
The first argument is recursion fuel; every step consumes at least one word,
so fuel equal to the word count (as supplied by `lexArgs`) never runs out. -/
def lexArgsF : Nat → List String → List OptEvent × List String
  | 0, args => ([], args)
  | _, [] => ([], [])
  | fuel + 1, t :: rest =>
    if t = "--" then ([], rest)
    else if beginsDashDash t then
      let (name, inlineArg) := splitEq (String.mk (t.data.drop 2))
      match long_options.find? (fun w => w.1 = name) with
      | Option.none => ([OptEvent.unknownOpt t], rest)
      | Option.some w =>
        if w.2.1 then
          match inlineArg with
          | Option.some v =>
            let (evs, lf) := lexArgsF fuel rest
            (valToEvent w.2.2 (Option.some v) :: evs, lf)
          | Option.none =>
            match rest with
            | [] => ([OptEvent.missingArg t], [])
            | v :: rest' =>
              let (evs, lf) := lexArgsF fuel rest'
              (valToEvent w.2.2 (Option.some v) :: evs, lf)
        else
          match inlineArg with
          | Option.some _ => ([OptEvent.unknownOpt t], rest)
          | Option.none =>
            let (evs, lf) := lexArgsF fuel rest
            (valToEvent w.2.2 Option.none :: evs, lf)
    else if beginsDash t ∧ t ≠ "-" then
      let (evs, used) := lexShort t (t.data.drop 1) rest.head?
      match evs.getLast? with
      | Option.some (OptEvent.missingArg _) => (evs, [])
      | _ =>
        match used, rest with
        | true, _ :: rest' =>
          let (evs', lf') := lexArgsF fuel rest'
          (evs ++ evs', lf')
        | true, [] => (evs, [])
        | false, _ =>
          let (evs', lf') := lexArgsF fuel rest
          (evs ++ evs', lf')
    else
      ([], t :: rest)

/-- Tokenisation entry point: fuel initialised to the argument count. -/
def lexArgs (args : List String) : List OptEvent × List String :=
  lexArgsF args.length args

/-- The `status_cmd_opts_t` record (status.cpp lines 109–114). -/
structure status_cmd_opts_t where
  level : Int := 1
  new_job_control_mode : Option job_control_t := Option.none
  status_cmd : status_cmd_t := STATUS_UNDEF
  print_help : Bool := false
  deriving DecidableEq, Repr

/-- `set_status_cmd` (status.cpp lines 143–154): success flag, updated
options, error messages appended. -/
def set_status_cmd (cmd : String) (opts : status_cmd_opts_t)
    (sub_cmd : status_cmd_t) : Bool × status_cmd_opts_t × List ErrMsg :=
  if opts.status_cmd ≠ STATUS_UNDEF then
    (false, opts,
     [ErrMsg.comboExclusive cmd (enum_to_str opts.status_cmd) (enum_to_str sub_cmd)])
  else
    (true, { opts with status_cmd := sub_cmd }, [])

/-- Outcome of one `case` of the `parse_cmd_opts` switch: either the loop is
left by a `return` (carrying the return value, the options record as mutated
so far, and the error messages appended), or the loop continues with the
updated record. -/
inductive StepRes
  | abort (r : Int) (opts : status_cmd_opts_t) (errs : List ErrMsg)
  | cont (opts : status_cmd_opts_t) (errs : List ErrMsg)
  deriving DecidableEq, Repr

/-- The `set_status_cmd`-then-`return STATUS_CMD_ERROR` pattern shared by the
eleven action-flag cases of the switch. -/
def actionFlagStep (cmd : String) (opts : status_cmd_opts_t)
    (sub_cmd : status_cmd_t) : StepRes :=
  match set_status_cmd cmd opts sub_cmd with
  | (false, o, errs) => StepRes.abort STATUS_CMD_ERROR o errs
  | (true, o, errs) => StepRes.cont o errs

/-- One `case` of the `parse_cmd_opts` switch (status.cpp lines 174–279),
transcribed arm for arm. -/
def parse_step (cmd : String) (opts : status_cmd_opts_t) :
    OptEvent → StepRes
  | OptEvent.longSub STATUS_IS_FULL_JOB_CTRL =>
    actionFlagStep cmd opts STATUS_IS_FULL_JOB_CTRL
  | OptEvent.longSub STATUS_IS_INTERACTIVE_JOB_CTRL =>
    actionFlagStep cmd opts STATUS_IS_INTERACTIVE_JOB_CTRL
  | OptEvent.longSub STATUS_IS_NO_JOB_CTRL =>
    actionFlagStep cmd opts STATUS_IS_NO_JOB_CTRL
  | OptEvent.longSub STATUS_FISH_PATH =>
    actionFlagStep cmd opts STATUS_FISH_PATH
  | OptEvent.shortOpt 'L' arg =>
    if (fish_wcstoi (arg.getD "")).1 < 0 ∨ (fish_wcstoi (arg.getD "")).2 = ConvErr.erange then
      StepRes.abort STATUS_INVALID_ARGS opts [ErrMsg.invalidLevel cmd (arg.getD "")]
    else if (fish_wcstoi (arg.getD "")).2 ≠ ConvErr.ok then
      StepRes.abort STATUS_INVALID_ARGS opts [ErrMsg.notANumber cmd (arg.getD "")]
    else
      StepRes.cont { opts with level := (fish_wcstoi (arg.getD "")).1 } []
  | OptEvent.shortOpt 'c' _ => actionFlagStep cmd opts STATUS_IS_COMMAND_SUB
  | OptEvent.shortOpt 'b' _ => actionFlagStep cmd opts STATUS_IS_BLOCK
  | OptEvent.shortOpt 'i' _ => actionFlagStep cmd opts STATUS_IS_INTERACTIVE
  | OptEvent.shortOpt 'l' _ => actionFlagStep cmd opts STATUS_IS_LOGIN
  | OptEvent.shortOpt 'f' _ => actionFlagStep cmd opts STATUS_FILENAME
  | OptEvent.shortOpt 'n' _ => actionFlagStep cmd opts STATUS_LINE_NUMBER
  | OptEvent.shortOpt 'j' arg =>
    match actionFlagStep cmd opts STATUS_SET_JOB_CONTROL with
    | StepRes.abort r o errs => StepRes.abort r o errs
    | StepRes.cont o errs =>
      match job_control_str_to_mode (arg.getD "") cmd with
      | (Option.none, errs2) => StepRes.abort STATUS_CMD_ERROR o (errs ++ errs2)
      | (Option.some m, errs2) =>
        StepRes.cont { o with new_job_control_mode := Option.some m } (errs ++ errs2)
  | OptEvent.shortOpt 't' _ => actionFlagStep cmd opts STATUS_STACK_TRACE
  | OptEvent.shortOpt 'h' _ =>
    StepRes.cont { opts with print_help := true } []
  | OptEvent.missingArg tok =>
    StepRes.abort STATUS_INVALID_ARGS opts [ErrMsg.missingOptArg cmd tok]
  | OptEvent.unknownOpt tok =>
    StepRes.abort STATUS_INVALID_ARGS opts [ErrMsg.unknownOption cmd tok]
  | OptEvent.shortOpt _ _ =>
    StepRes.abort STATUS_CMD_ERROR opts [ErrMsg.internalDie]
  | OptEvent.longSub _ =>
    StepRes.abort STATUS_CMD_ERROR opts [ErrMsg.internalDie]

/-- The option-scanning loop of `parse_cmd_opts` (status.cpp lines 168–284),
as a fold of `parse_step` over the events `wgetopt_long` yields: the C
function's return value, the options record, and the error messages appended
along the way. -/
def parse_cmd_opts (cmd : String) (opts : status_cmd_opts_t) :
    List OptEvent → Int × status_cmd_opts_t × List ErrMsg
  | [] => (STATUS_CMD_OK, opts, [])
  | e :: rest =>
    match parse_step cmd opts e with
    | StepRes.abort r o errs => (r, o, errs)
    | StepRes.cont o errs =>
      let (r, o', errs') := parse_cmd_opts cmd o rest
      (r, o', errs ++ errs')

/-- A feature-flag registry entry as consumed by the builtin
(`feature_metadata()` plus `feature_test(md.flag)`). -/
structure FeatureMd where
  name : String
  enabled : Bool
  groups : String
  description : String
  deriving DecidableEq, Repr

/-- The external session state and collaborators the builtin reads:
`get_login`, `get_job_control_mode`, `is_interactive_session`, the parser's
introspection facilities, the feature registry, and the path utilities used
by the fish-path action. -/
structure Env where
  login : Bool
  job_control_mode : job_control_t
  interactive_session : Bool
  is_subshell : Bool
  is_block : Bool
  is_breakpoint : Bool
  current_filename : Option String
  get_function_name : Int → Option String
  lineno : Int
  stack_trace : String
  status_var_command : String
  status_var_commandline : String
  program_name : String
  features : List FeatureMd
  executable_path : String
  realpath : String → Option String
  waccess : String → Int
  wdirname : String → String
  wbasename : String → String

/-- The observable outcome of one invocation: the returned status, the chunks
appended to the output stream, the messages appended to the error stream, and
the argument of the `set_job_control_mode` call if one was made. -/
structure BuiltinResult where
  retval : Int
  out : List String
  err : List ErrMsg
  jc_write : Option job_control_t
  deriving Repr

/-- Modelled from the spec: the text `builtin_print_help` (builtin.cpp, not
under src/) emits for this command; its exact content is irrelevant here. -/
def statusHelpText : String := "<status help>"

/-- The C `int` coercion of a boolean (`retval = !get_login()` and friends). -/
def bint (b : Bool) : Int := if b then 1 else 0

/-- Right-pad with spaces to the given width (the `%-*ls` / `%-3s` printf
paddings of `print_features`). -/
def padRight (s : String) (w : Nat) : String :=
  s ++ String.mk (List.replicate (w - s.length) ' ')

/-- `print_features` (status.cpp lines 157–166): one output chunk per
feature, name padded to the longest name plus one, on/off padded to three
columns. -/
def print_features (features : List FeatureMd) : List String :=
  let max_len : Int :=
    features.foldl (fun m md => max m (Int.ofNat md.name.length)) (-2147483648)
  features.map (fun md =>
    padRight md.name (max_len + 1).toNat ++
      padRight (if md.enabled then "on" else "off") 3 ++ " " ++
      md.groups ++ " " ++ md.description ++ "\n")

/-- The `test-feature` scan (status.cpp lines 368–374): `retval` starts at
`TEST_FEATURE_NOT_RECOGNIZED` (2) and the first registry entry whose name
equals the argument sets it to `TEST_FEATURE_ON` (0) or `TEST_FEATURE_OFF`
(1). -/
def testFeatureRet : List FeatureMd → String → Int
  | [], _ => 2
  | md :: rest, arg =>
    if md.name = arg then (if md.enabled then 0 else 1) else testFeatureRet rest arg

/-- The `CHECK_FOR_UNEXPECTED_STATUS_ARGS` macro's error outcome
(status.cpp lines 83–90): `enum_to_str` of the subcommand, falling back to
"default" for the null pointer `STATUS_UNDEF` yields. -/
def unexpectedArgsResult (cmd : String) (c : status_cmd_t)
    (args : List String) : BuiltinResult :=
  ⟨STATUS_INVALID_ARGS, [],
   [ErrMsg.argCount2 cmd ((enum_to_str c).getD "default") 0 args.length],
   Option.none⟩

/-- The dispatch switch of `builtin_status` (status.cpp lines 319–501),
entered with `retval = STATUS_CMD_OK` and the unconsumed arguments.  Output
chunks record each `append`/`push`; `jc_write` records the argument of the
`set_job_control_mode` call if one happens. -/
def dispatch (env : Env) (cmd : String) (opts : status_cmd_opts_t)
    (args : List String) : BuiltinResult :=
  match opts.status_cmd with
  | STATUS_UNDEF =>
    if args ≠ [] then unexpectedArgsResult cmd STATUS_UNDEF args
    else
      ⟨STATUS_CMD_OK,
       [(if env.login then "This is a login shell\n" else "This is not a login shell\n"),
        "Job control: " ++
          (if env.job_control_mode = job_control_t.interactive then "Only on interactive jobs"
           else if env.job_control_mode = job_control_t.none then "Never" else "Always") ++ "\n",
        env.stack_trace],
       [], Option.none⟩
  | STATUS_SET_JOB_CONTROL =>
    match opts.new_job_control_mode with
    | Option.some m =>
      -- Flag form was used.
      if args ≠ [] then unexpectedArgsResult cmd STATUS_SET_JOB_CONTROL args
      else ⟨STATUS_CMD_OK, [], [], Option.some m⟩
    | Option.none =>
      if args.length ≠ 1 then
        ⟨STATUS_INVALID_ARGS, [],
         [ErrMsg.argCount2 cmd ((enum_to_str STATUS_SET_JOB_CONTROL).getD "") 1 args.length],
         Option.none⟩
      else
        match job_control_str_to_mode (args.headD "") cmd with
        | (Option.none, errs) => ⟨STATUS_CMD_ERROR, [], errs, Option.none⟩
        | (Option.some m, errs) => ⟨STATUS_CMD_OK, [], errs, Option.some m⟩
  | STATUS_FEATURES =>
    ⟨STATUS_CMD_OK, print_features env.features, [], Option.none⟩
  | STATUS_TEST_FEATURE =>
    if args.length ≠ 1 then
      ⟨STATUS_INVALID_ARGS, [],
       [ErrMsg.argCount2 cmd ((enum_to_str STATUS_TEST_FEATURE).getD "") 1 args.length],
       Option.none⟩
    else
      ⟨testFeatureRet env.features (args.headD ""), [], [], Option.none⟩
  | STATUS_BASENAME =>
    if args ≠ [] then unexpectedArgsResult cmd STATUS_BASENAME args
    else
      let fn0 := (env.current_filename).getD ""
      let fn := if fn0 ≠ "" then env.wbasename fn0 else "Standard input"
      ⟨STATUS_CMD_OK, [fn ++ "\n"], [], Option.none⟩
  | STATUS_DIRNAME =>
    if args ≠ [] then unexpectedArgsResult cmd STATUS_DIRNAME args
    else
      let fn0 := (env.current_filename).getD ""
      let fn := if fn0 ≠ "" then env.wdirname fn0 else "Standard input"
      ⟨STATUS_CMD_OK, [fn ++ "\n"], [], Option.none⟩
  | STATUS_FILENAME =>
    if args ≠ [] then unexpectedArgsResult cmd STATUS_FILENAME args
    else
      let fn0 := (env.current_filename).getD ""
      let fn := if fn0 = "" then "Standard input" else fn0
      ⟨STATUS_CMD_OK, [fn ++ "\n"], [], Option.none⟩
  | STATUS_FUNCTION =>
    if args ≠ [] then unexpectedArgsResult cmd STATUS_FUNCTION args
    else
      ⟨STATUS_CMD_OK,
       [((env.get_function_name opts.level).getD "Not a function") ++ "\n"],
       [], Option.none⟩
  | STATUS_LINE_NUMBER =>
    if args ≠ [] then unexpectedArgsResult cmd STATUS_LINE_NUMBER args
    else ⟨STATUS_CMD_OK, [toString env.lineno ++ "\n"], [], Option.none⟩
  | STATUS_IS_INTERACTIVE =>
    if args ≠ [] then unexpectedArgsResult cmd STATUS_IS_INTERACTIVE args
    else ⟨if env.interactive_session then 0 else 1, [], [], Option.none⟩
  | STATUS_IS_COMMAND_SUB =>
    if args ≠ [] then unexpectedArgsResult cmd STATUS_IS_COMMAND_SUB args
    else ⟨if env.is_subshell then 0 else 1, [], [], Option.none⟩
  | STATUS_IS_BLOCK =>
    if args ≠ [] then unexpectedArgsResult cmd STATUS_IS_BLOCK args
    else ⟨if env.is_block then 0 else 1, [], [], Option.none⟩
  | STATUS_IS_BREAKPOINT =>
    if args ≠ [] then unexpectedArgsResult cmd STATUS_IS_BREAKPOINT args
    else ⟨if env.is_breakpoint then 0 else 1, [], [], Option.none⟩
  | STATUS_IS_LOGIN =>
    if args ≠ [] then unexpectedArgsResult cmd STATUS_IS_LOGIN args
    else ⟨bint (!env.login), [], [], Option.none⟩
  | STATUS_IS_FULL_JOB_CTRL =>
    if args ≠ [] then unexpectedArgsResult cmd STATUS_IS_FULL_JOB_CTRL args
    else
      ⟨bint (env.job_control_mode ≠ job_control_t.all), [], [], Option.none⟩
  | STATUS_IS_INTERACTIVE_JOB_CTRL =>
    if args ≠ [] then unexpectedArgsResult cmd STATUS_IS_INTERACTIVE_JOB_CTRL args
    else
      ⟨bint (env.job_control_mode ≠ job_control_t.interactive), [], [], Option.none⟩
  | STATUS_IS_NO_JOB_CTRL =>
    if args ≠ [] then unexpectedArgsResult cmd STATUS_IS_NO_JOB_CTRL args
    else
      ⟨bint (env.job_control_mode ≠ job_control_t.none), [], [], Option.none⟩
  | STATUS_STACK_TRACE =>
    if args ≠ [] then unexpectedArgsResult cmd STATUS_STACK_TRACE args
    else ⟨STATUS_CMD_OK, [env.stack_trace], [], Option.none⟩
  | STATUS_CURRENT_CMD =>
    if args ≠ [] then unexpectedArgsResult cmd STATUS_CURRENT_CMD args
    else if env.status_var_command ≠ "" then
      ⟨STATUS_CMD_OK, [env.status_var_command, "\n"], [], Option.none⟩
    else
      ⟨STATUS_CMD_OK, [env.program_name, "\n"], [], Option.none⟩
  | STATUS_CURRENT_COMMANDLINE =>
    if args ≠ [] then unexpectedArgsResult cmd STATUS_CURRENT_COMMANDLINE args
    else ⟨STATUS_CMD_OK, [env.status_var_commandline, "\n"], [], Option.none⟩
  | STATUS_FISH_PATH =>
    if args ≠ [] then unexpectedArgsResult cmd STATUS_FISH_PATH args
    else
      let path := env.executable_path
      if path = "" then
        ⟨STATUS_CMD_OK, [], [ErrMsg.couldNotGetPath cmd], Option.none⟩
      else if path.data.head? = Option.some '/' then
        -- This is an absolute path, we can canonicalize it.
        match env.realpath path with
        | Option.some real =>
          if env.waccess real ≠ 0 then
            ⟨STATUS_CMD_OK, [real, "\n"], [], Option.none⟩
          else
            ⟨STATUS_CMD_OK, [path, "\n"], [], Option.none⟩
        | Option.none =>
          ⟨STATUS_CMD_OK, [path, "\n"], [], Option.none⟩
      else
        ⟨STATUS_CMD_OK, [path, "\n"], [], Option.none⟩

/-- The first-word subcommand resolution of `builtin_status` (status.cpp
lines 301–314): the word either resolves through the alias table and the
exclusivity guard, or aborts; note the error message reports `argv[1]`, which
is passed in by the caller. -/
def resolve_subcommand (cmd : String) (opts : status_cmd_opts_t)
    (argv1 : String) :
    List String → Except BuiltinResult (status_cmd_opts_t × List String)
  | [] => Except.ok (opts, [])
  | w :: rest =>
    let subcmd := str_to_enum w
    if subcmd ≠ STATUS_UNDEF then
      match set_status_cmd cmd opts subcmd with
      | (false, _, errs) =>
        Except.error ⟨STATUS_CMD_ERROR, [], errs, Option.none⟩
      | (true, opts', _) => Except.ok (opts', rest)
    else
      Except.error
        ⟨STATUS_INVALID_ARGS, [], [ErrMsg.invalidSubcmd cmd argv1], Option.none⟩

/-- `builtin_status` (status.cpp lines 287–504) as a function of the external
environment and the argument vector (`argv[0]` is the command name). -/
def builtin_status (env : Env) (argv : List String) : BuiltinResult :=
  let cmd := argv.headD ""
  let events := (lexArgs argv.tail).1
  let leftover := (lexArgs argv.tail).2
  let retval := (parse_cmd_opts cmd {} events).1
  let opts := (parse_cmd_opts cmd {} events).2.1
  let errs := (parse_cmd_opts cmd {} events).2.2
  if retval ≠ STATUS_CMD_OK then ⟨retval, [], errs, Option.none⟩
  else if opts.print_help then ⟨STATUS_CMD_OK, [statusHelpText], errs, Option.none⟩
  else
    match resolve_subcommand cmd opts (argv.getD 1 "") leftover with
    | Except.error r => { r with err := errs ++ r.err }
    | Except.ok (opts', args) =>
      let d := dispatch env cmd opts' args
      { d with err := errs ++ d.err }

/-! ### Infrastructure lemmas about the scanning loop -/

theorem actionFlagStep_cases (cmd : String) (opts : status_cmd_opts_t)
    (a : status_cmd_t) :
    (opts.status_cmd ≠ STATUS_UNDEF ∧
      actionFlagStep cmd opts a = StepRes.abort STATUS_CMD_ERROR opts
        [ErrMsg.comboExclusive cmd (enum_to_str opts.status_cmd) (enum_to_str a)]) ∨
    (opts.status_cmd = STATUS_UNDEF ∧
      actionFlagStep cmd opts a = StepRes.cont { opts with status_cmd := a } []) := by
  by_cases h : opts.status_cmd = STATUS_UNDEF
  · right
    exact ⟨h, by simp [actionFlagStep, set_status_cmd, h]⟩
  · left
    exact ⟨h, by simp [actionFlagStep, set_status_cmd, h]⟩

theorem actionFlagStep_abort_eq (cmd : String) (opts : status_cmd_opts_t)
    (a : status_cmd_t) (r : Int) (o : status_cmd_opts_t) (errs : List ErrMsg)
    (h : actionFlagStep cmd opts a = StepRes.abort r o errs) :
    r = STATUS_CMD_ERROR ∧ o = opts ∧
      errs = [ErrMsg.comboExclusive cmd (enum_to_str opts.status_cmd) (enum_to_str a)] ∧
      opts.status_cmd ≠ STATUS_UNDEF := by
  rcases actionFlagStep_cases cmd opts a with ⟨hne, hs⟩ | ⟨_, hs⟩
  · rw [hs] at h
    injection h with h1 h2 h3
    exact ⟨h1.symm, h2.symm, h3.symm, hne⟩
  · rw [hs] at h
    exact absurd h (by simp)

theorem actionFlagStep_cont_eq (cmd : String) (opts : status_cmd_opts_t)
    (a : status_cmd_t) (o : status_cmd_opts_t) (errs : List ErrMsg)
    (h : actionFlagStep cmd opts a = StepRes.cont o errs) :
    o = { opts with status_cmd := a } ∧ errs = [] ∧
      opts.status_cmd = STATUS_UNDEF := by
  rcases actionFlagStep_cases cmd opts a with ⟨_, hs⟩ | ⟨he, hs⟩
  · rw [hs] at h
    exact absurd h (by simp)
  · rw [hs] at h
    injection h with h1 h2
    exact ⟨h1.symm, h2.symm, he⟩

theorem parse_step_abort_ne_ok (cmd : String) (opts : status_cmd_opts_t)
    (e : OptEvent) (r : Int) (o : status_cmd_opts_t) (errs : List ErrMsg)
    (h : parse_step cmd opts e = StepRes.abort r o errs) : r ≠ STATUS_CMD_OK := by
  unfold parse_step at h
  split at h
  all_goals first
  | (rw [(actionFlagStep_abort_eq _ _ _ _ _ _ h).1]; decide)
  | (injection h with h1 h2 h3; rw [← h1]; decide)
  | ( -- the 'L' case: nested ifs
     split at h <;>
       first
       | (injection h with h1 h2 h3; rw [← h1]; decide)
       | (split at h <;>
           first
           | (injection h with h1 h2 h3; rw [← h1]; decide)
           | exact absurd h (by simp)))
  | ( -- the 'j' case: nested matches
     rcases actionFlagStep_cases cmd opts STATUS_SET_JOB_CONTROL with
       ⟨_, hs⟩ | ⟨_, hs⟩ <;> rw [hs] at h
     · (injection h with h1 h2 h3; rw [← h1]; decide)
     · (dsimp only at h
        split at h <;>
          first
          | (injection h with h1 h2 h3; rw [← h1]; decide)
          | exact absurd h (by simp)))
  | exact absurd h (by simp)

theorem job_mode_some_errs (s cmd : String) (m : job_control_t)
    (errs : List ErrMsg) (h : job_control_str_to_mode s cmd = (Option.some m, errs)) :
    errs = [] := by
  unfold job_control_str_to_mode at h
  split at h
  · injection h with h1 h2; exact h2.symm
  · split at h
    · injection h with h1 h2; exact h2.symm
    · split at h
      · injection h with h1 h2; exact h2.symm
      · exact absurd h (by simp)

theorem job_mode_none_errs (s cmd : String) (errs : List ErrMsg)
    (h : job_control_str_to_mode s cmd = (Option.none, errs)) :
    errs = [ErrMsg.invalidJobMode cmd s] := by
  unfold job_control_str_to_mode at h
  split at h
  · exact absurd h (by simp)
  · split at h
    · exact absurd h (by simp)
    · split at h
      · exact absurd h (by simp)
      · injection h with h1 h2; exact h2.symm

theorem parse_step_cont_errs (cmd : String) (opts : status_cmd_opts_t)
    (e : OptEvent) (o : status_cmd_opts_t) (errs : List ErrMsg)
    (h : parse_step cmd opts e = StepRes.cont o errs) : errs = [] := by
  unfold parse_step at h
  split at h
  case h_5 =>
    -- the 'L' case: nested ifs
    split at h
    · exact absurd h (by simp)
    · split at h
      · exact absurd h (by simp)
      · injection h with h1 h2; exact h2.symm
  case h_12 =>
    -- the 'j' case: nested matches
    rcases actionFlagStep_cases cmd opts STATUS_SET_JOB_CONTROL with
      ⟨_, hs⟩ | ⟨_, hs⟩ <;> rw [hs] at h <;> dsimp only at h
    · exact absurd h (by simp)
    · split at h
      · exact absurd h (by simp)
      · rename_i m errs2 heq
        injection h with h1 h2
        rw [← h2, job_mode_some_errs _ _ _ _ heq]
        rfl
  all_goals first
  | exact (actionFlagStep_cont_eq _ _ _ _ _ h).2.1
  | (injection h with h1 h2; exact h2.symm)
  | exact absurd h (by simp)

theorem parse_step_abort_no_argCount (cmd : String) (opts : status_cmd_opts_t)
    (e : OptEvent) (r : Int) (o : status_cmd_opts_t) (errs : List ErrMsg)
    (c s : String) (k n : Nat)
    (h : parse_step cmd opts e = StepRes.abort r o errs) :
    ErrMsg.argCount2 c s k n ∉ errs := by
  unfold parse_step at h
  split at h
  case h_5 =>
    -- the 'L' case: nested ifs
    split at h
    · injection h with h1 h2 h3; rw [← h3]; simp
    · split at h
      · injection h with h1 h2 h3; rw [← h3]; simp
      · exact absurd h (by simp)
  case h_12 =>
    -- the 'j' case: nested matches
    rcases actionFlagStep_cases cmd opts STATUS_SET_JOB_CONTROL with
      ⟨_, hs⟩ | ⟨_, hs⟩ <;> rw [hs] at h <;> dsimp only at h
    · injection h with h1 h2 h3; rw [← h3]; simp
    · split at h
      · rename_i errs2 heq
        injection h with h1 h2 h3
        rw [← h3, job_mode_none_errs _ _ _ heq]
        simp
      · exact absurd h (by simp)
  all_goals first
  | (rw [(actionFlagStep_abort_eq _ _ _ _ _ _ h).2.2.1]; simp)
  | (injection h with h1 h2 h3; rw [← h3]; simp)
  | exact absurd h (by simp)

theorem parse_ok_errs (cmd : String) (events : List OptEvent) :
    ∀ opts : status_cmd_opts_t,
      (parse_cmd_opts cmd opts events).1 = STATUS_CMD_OK →
      (parse_cmd_opts cmd opts events).2.2 = [] := by
  induction events with
  | nil => intro opts _; rfl
  | cons e rest ih =>
    intro opts h
    cases hstep : parse_step cmd opts e with
    | abort r o errs =>
      simp only [parse_cmd_opts, hstep] at h
      exact absurd h (parse_step_abort_ne_ok _ _ _ _ _ _ hstep)
    | cont o errs =>
      have hz := parse_step_cont_errs _ _ _ _ _ hstep
      simp only [parse_cmd_opts, hstep] at h ⊢
      rw [hz, List.nil_append]
      exact ih o h

theorem parse_no_argCount (cmd : String) (events : List OptEvent) :
    ∀ (opts : status_cmd_opts_t) (c s : String) (k n : Nat),
      ErrMsg.argCount2 c s k n ∉ (parse_cmd_opts cmd opts events).2.2 := by
  induction events with
  | nil => intro opts c s k n; simp [parse_cmd_opts]
  | cons e rest ih =>
    intro opts c s k n
    cases hstep : parse_step cmd opts e with
    | abort r o errs =>
      simp only [parse_cmd_opts, hstep]
      exact parse_step_abort_no_argCount _ _ _ _ _ _ _ _ _ _ hstep
    | cont o errs =>
      have hz := parse_step_cont_errs _ _ _ _ _ hstep
      simp only [parse_cmd_opts, hstep]
      rw [hz, List.nil_append]
      exact ih o c s k n

/-- The action selected by a scanner event, if any: the event-to-action
mapping of the `parse_cmd_opts` switch cases that call `set_status_cmd`
(status.cpp lines 175–198, 211–263), stated separately so that the
exclusivity property can be expressed independently of the loop. -/
def flagAction : OptEvent → Option status_cmd_t
  | OptEvent.shortOpt c _ =>
    if c = 'c' then Option.some STATUS_IS_COMMAND_SUB
    else if c = 'b' then Option.some STATUS_IS_BLOCK
    else if c = 'i' then Option.some STATUS_IS_INTERACTIVE
    else if c = 'l' then Option.some STATUS_IS_LOGIN
    else if c = 'f' then Option.some STATUS_FILENAME
    else if c = 'n' then Option.some STATUS_LINE_NUMBER
    else if c = 'j' then Option.some STATUS_SET_JOB_CONTROL
    else if c = 't' then Option.some STATUS_STACK_TRACE
    else Option.none
  | OptEvent.longSub a =>
    if a = STATUS_IS_FULL_JOB_CTRL ∨ a = STATUS_IS_INTERACTIVE_JOB_CTRL ∨
       a = STATUS_IS_NO_JOB_CTRL ∨ a = STATUS_FISH_PATH then Option.some a
    else Option.none
  | _ => Option.none

/-- Whether, absent an exclusivity conflict, the scanning loop proceeds past
the event: the help flag, the action flags and a valid level value do; an
invalid level value, an invalid job-control mode, and the `':'`/`'?'` error
returns abort. -/
def eventProceeds (cmd : String) : OptEvent → Bool
  | OptEvent.shortOpt c arg =>
    if c = 'L' then
      decide (¬((fish_wcstoi (arg.getD "")).1 < 0 ∨
                (fish_wcstoi (arg.getD "")).2 = ConvErr.erange) ∧
              (fish_wcstoi (arg.getD "")).2 = ConvErr.ok)
    else if c = 'j' then
      ((job_control_str_to_mode (arg.getD "") cmd).1).isSome
    else
      decide (c = 'h' ∨ c = 'c' ∨ c = 'b' ∨ c = 'i' ∨ c = 'l' ∨ c = 'f' ∨
              c = 'n' ∨ c = 't')
  | OptEvent.longSub a =>
    decide (a = STATUS_IS_FULL_JOB_CTRL ∨ a = STATUS_IS_INTERACTIVE_JOB_CTRL ∨
            a = STATUS_IS_NO_JOB_CTRL ∨ a = STATUS_FISH_PATH)
  | _ => false

/-- The pair of actions at the first exclusivity violation among the flag
events, given the action already claimed: `none` when scanning either
completes or aborts for a non-conflict reason first. -/
def firstFlagConflict (cmd : String) (cur : status_cmd_t) :
    List OptEvent → Option (status_cmd_t × status_cmd_t)
  | [] => Option.none
  | e :: rest =>
    match flagAction e with
    | Option.some a =>
      if cur ≠ STATUS_UNDEF then Option.some (cur, a)
      else if eventProceeds cmd e then firstFlagConflict cmd a rest
      else Option.none
    | Option.none =>
      if eventProceeds cmd e then firstFlagConflict cmd cur rest
      else Option.none

/-- The pair of distinct-or-equal actions doubly requested by an invocation,
if its processing reaches the exclusivity guard a second time: either two
action flags conflict during scanning, or scanning succeeds (without the
help flag) and the first leftover word resolves while a flag already claimed
the action. -/
def statusConflict (argv : List String) : Option (status_cmd_t × status_cmd_t) :=
  let cmd := argv.headD ""
  let events := (lexArgs argv.tail).1
  match firstFlagConflict cmd STATUS_UNDEF events with
  | Option.some p => Option.some p
  | Option.none =>
    let pr := parse_cmd_opts cmd {} events
    if pr.1 = STATUS_CMD_OK ∧ pr.2.1.print_help = false then
      match (lexArgs argv.tail).2 with
      | [] => Option.none
      | w :: _ =>
        if str_to_enum w ≠ STATUS_UNDEF ∧ pr.2.1.status_cmd ≠ STATUS_UNDEF then
          Option.some (pr.2.1.status_cmd, str_to_enum w)
        else Option.none
    else Option.none

theorem pair_eta_fst {α β : Type} (p : α × β) {x : α} (h : p.1 = x) :
    p = (x, p.2) := by
  rw [← h]

theorem parse_step_j_eq (cmd : String) (opts : status_cmd_opts_t)
    (arg : Option String) :
    parse_step cmd opts (OptEvent.shortOpt 'j' arg) =
      (match actionFlagStep cmd opts STATUS_SET_JOB_CONTROL with
       | StepRes.abort r o errs => StepRes.abort r o errs
       | StepRes.cont o errs =>
         match job_control_str_to_mode (arg.getD "") cmd with
         | (Option.none, errs2) => StepRes.abort STATUS_CMD_ERROR o (errs ++ errs2)
         | (Option.some m, errs2) =>
           StepRes.cont { o with new_job_control_mode := Option.some m }
             (errs ++ errs2)) := rfl

theorem parse_step_L_eq (cmd : String) (opts : status_cmd_opts_t)
    (arg : Option String) :
    parse_step cmd opts (OptEvent.shortOpt 'L' arg) =
      (if (fish_wcstoi (arg.getD "")).1 < 0 ∨
          (fish_wcstoi (arg.getD "")).2 = ConvErr.erange then
        StepRes.abort STATUS_INVALID_ARGS opts [ErrMsg.invalidLevel cmd (arg.getD "")]
      else if (fish_wcstoi (arg.getD "")).2 ≠ ConvErr.ok then
        StepRes.abort STATUS_INVALID_ARGS opts [ErrMsg.notANumber cmd (arg.getD "")]
      else
        StepRes.cont { opts with level := (fish_wcstoi (arg.getD "")).1 } []) := rfl

theorem actionFlagStep_conflict (cmd : String) (opts : status_cmd_opts_t)
    (a : status_cmd_t) (hne : opts.status_cmd ≠ STATUS_UNDEF) :
    actionFlagStep cmd opts a = StepRes.abort STATUS_CMD_ERROR opts
      [ErrMsg.comboExclusive cmd (enum_to_str opts.status_cmd) (enum_to_str a)] := by
  rcases actionFlagStep_cases cmd opts a with ⟨_, hs⟩ | ⟨hcur, _⟩
  · exact hs
  · exact absurd hcur hne

theorem actionFlagStep_claim (cmd : String) (opts : status_cmd_opts_t)
    (a : status_cmd_t) (hcur : opts.status_cmd = STATUS_UNDEF) :
    actionFlagStep cmd opts a =
      StepRes.cont { opts with status_cmd := a } [] := by
  rcases actionFlagStep_cases cmd opts a with ⟨hne, _⟩ | ⟨_, hs⟩
  · exact absurd hcur hne
  · exact hs

theorem parse_step_conflict (cmd : String) (opts : status_cmd_opts_t)
    (e : OptEvent) (a : status_cmd_t) (hfa : flagAction e = Option.some a)
    (hne : opts.status_cmd ≠ STATUS_UNDEF) :
    parse_step cmd opts e = StepRes.abort STATUS_CMD_ERROR opts
      [ErrMsg.comboExclusive cmd (enum_to_str opts.status_cmd) (enum_to_str a)] := by
  cases e with
  | missingArg tok => simp [flagAction] at hfa
  | unknownOpt tok => simp [flagAction] at hfa
  | longSub a0 =>
    simp only [flagAction] at hfa
    split at hfa
    · rename_i hor
      injection hfa with h1
      subst h1
      rcases hor with hc | hc | hc | hc <;> subst hc <;>
        exact actionFlagStep_conflict cmd opts _ hne
    · simp at hfa
  | shortOpt c arg =>
    simp only [flagAction] at hfa
    repeat' split at hfa
    all_goals first
    | (simp at hfa
       done)
    | (injection hfa with h1
       subst h1
       rename_i hc
       subst hc
       first
       | exact actionFlagStep_conflict cmd opts _ hne
       | rw [parse_step_j_eq,
             actionFlagStep_conflict cmd opts STATUS_SET_JOB_CONTROL hne])

theorem parse_step_select (cmd : String) (opts : status_cmd_opts_t)
    (e : OptEvent) (a : status_cmd_t) (hfa : flagAction e = Option.some a)
    (hcur : opts.status_cmd = STATUS_UNDEF) (hp : eventProceeds cmd e = true) :
    ∃ o, parse_step cmd opts e = StepRes.cont o [] ∧ o.status_cmd = a := by
  cases e with
  | missingArg tok => simp [flagAction] at hfa
  | unknownOpt tok => simp [flagAction] at hfa
  | longSub a0 =>
    simp only [flagAction] at hfa
    split at hfa
    · rename_i hor
      injection hfa with h1
      subst h1
      rcases hor with hc | hc | hc | hc <;> subst hc <;>
        exact ⟨_, actionFlagStep_claim cmd opts _ hcur, rfl⟩
    · simp at hfa
  | shortOpt c arg =>
    simp only [flagAction] at hfa
    repeat' split at hfa
    all_goals first
    | (simp at hfa
       done)
    | (injection hfa with h1
       subst h1
       rename_i hc
       subst hc
       first
       | exact ⟨_, actionFlagStep_claim cmd opts _ hcur, rfl⟩
       | ( -- the 'j' case: the scanner proceeded, so the mode parsed
          rcases Option.isSome_iff_exists.mp hp with ⟨m, hm⟩
          have hjc := pair_eta_fst _ hm
          refine ⟨{ { opts with status_cmd := STATUS_SET_JOB_CONTROL } with
                      new_job_control_mode := Option.some m }, ?_, rfl⟩
          rw [parse_step_j_eq,
            actionFlagStep_claim cmd opts STATUS_SET_JOB_CONTROL hcur,
            hjc, job_mode_some_errs _ _ _ _ hjc]
          rfl))

theorem parse_step_pass (cmd : String) (opts : status_cmd_opts_t)
    (e : OptEvent) (hfa : flagAction e = Option.none)
    (hp : eventProceeds cmd e = true) :
    ∃ o, parse_step cmd opts e = StepRes.cont o [] ∧
      o.status_cmd = opts.status_cmd := by
  cases e with
  | missingArg tok => simp [eventProceeds] at hp
  | unknownOpt tok => simp [eventProceeds] at hp
  | longSub a0 =>
    simp only [eventProceeds] at hp
    rcases of_decide_eq_true hp with hc | hc | hc | hc <;> subst hc <;>
      simp [flagAction] at hfa
  | shortOpt c arg =>
    simp only [eventProceeds] at hp
    split at hp
    · -- c = 'L' with a valid value
      rename_i hc
      subst hc
      obtain ⟨h1, h2⟩ := of_decide_eq_true hp
      refine ⟨{ opts with level := (fish_wcstoi (arg.getD "")).1 }, ?_, rfl⟩
      rw [parse_step_L_eq, if_neg h1, if_neg (by simp [h2])]
    · split at hp
      · -- c = 'j' selects an action, contradicting hfa
        rename_i hc
        subst hc
        simp [flagAction] at hfa
      · rcases of_decide_eq_true hp with hc | hc | hc | hc | hc | hc | hc | hc <;>
          subst hc <;>
          first
          | exact ⟨{ opts with print_help := true }, rfl, rfl⟩
          | simp [flagAction] at hfa

theorem conflict_parse (cmd : String) (events : List OptEvent) :
    ∀ (opts : status_cmd_opts_t) (a b : status_cmd_t),
      firstFlagConflict cmd opts.status_cmd events = Option.some (a, b) →
      (parse_cmd_opts cmd opts events).1 = STATUS_CMD_ERROR ∧
      (parse_cmd_opts cmd opts events).2.2 =
        [ErrMsg.comboExclusive cmd (enum_to_str a) (enum_to_str b)] := by
  induction events with
  | nil =>
    intro opts a b h
    simp [firstFlagConflict] at h
  | cons e rest ih =>
    intro opts a b h
    rw [firstFlagConflict] at h
    cases hfa : flagAction e with
    | some a0 =>
      rw [hfa] at h
      dsimp only at h
      by_cases hcur : opts.status_cmd = STATUS_UNDEF
      · rw [if_neg (by simpa using hcur)] at h
        by_cases hp : eventProceeds cmd e = true
        · rw [if_pos hp] at h
          obtain ⟨o, hstep, ho⟩ := parse_step_select cmd opts e a0 hfa hcur hp
          have ih' := ih o a b (by rw [ho]; exact h)
          simp only [parse_cmd_opts, hstep]
          refine ⟨by simpa using ih'.1, ?_⟩
          simpa using ih'.2
        · rw [if_neg hp] at h
          exact absurd h (by simp)
      · rw [if_pos (by simpa using hcur)] at h
        have hstep := parse_step_conflict cmd opts e a0 hfa hcur
        simp only [Option.some.injEq, Prod.mk.injEq] at h
        obtain ⟨h1, h2⟩ := h
        subst h1
        subst h2
        exact ⟨by simp [parse_cmd_opts, hstep], by simp [parse_cmd_opts, hstep]⟩
    | none =>
      rw [hfa] at h
      dsimp only at h
      by_cases hp : eventProceeds cmd e = true
      · rw [if_pos hp] at h
        obtain ⟨o, hstep, ho⟩ := parse_step_pass cmd opts e hfa hp
        have ih' := ih o a b (by rw [ho]; exact h)
        simp only [parse_cmd_opts, hstep]
        refine ⟨by simpa using ih'.1, ?_⟩
        simpa using ih'.2
      · rw [if_neg hp] at h
        exact absurd h (by simp)

theorem enum_to_str_ne_default (a : status_cmd_t) (ha : a ≠ STATUS_UNDEF) :
    (enum_to_str a).getD "default" ≠ "default" := by
  cases a <;> first | decide | exact absurd rfl ha

theorem argCount_default_not_mem_unexpected (cmd c : String) (a : status_cmd_t)
    (args : List String) (n : Nat) (ha : a ≠ STATUS_UNDEF) :
    ErrMsg.argCount2 c "default" 0 n ∉ (unexpectedArgsResult cmd a args).err := by
  have hY := enum_to_str_ne_default a ha
  simp only [unexpectedArgsResult, List.mem_singleton, ErrMsg.argCount2.injEq]
  rintro ⟨-, h2, -⟩
  exact hY h2.symm

theorem resolve_ok_cases (cmd : String) (opts : status_cmd_opts_t)
    (argv1 : String) (lf : List String) (opts' : status_cmd_opts_t)
    (args : List String)
    (h : resolve_subcommand cmd opts argv1 lf = Except.ok (opts', args)) :
    (opts' = opts ∧ args = []) ∨ opts'.status_cmd ≠ STATUS_UNDEF := by
  cases lf with
  | nil =>
    simp only [resolve_subcommand, Except.ok.injEq, Prod.mk.injEq] at h
    exact Or.inl ⟨h.1.symm, h.2.symm⟩
  | cons w rest =>
    simp only [resolve_subcommand] at h
    by_cases hw : str_to_enum w = STATUS_UNDEF
    · simp [hw] at h
    · rw [if_pos (by simpa using hw)] at h
      by_cases hcur : opts.status_cmd = STATUS_UNDEF
      · have hset : set_status_cmd cmd opts (str_to_enum w) =
            (true, { opts with status_cmd := str_to_enum w }, []) := by
          simp [set_status_cmd, hcur]
        rw [hset] at h
        simp only [Except.ok.injEq, Prod.mk.injEq] at h
        right
        rw [← h.1]
        exact hw
      · have hset : set_status_cmd cmd opts (str_to_enum w) =
            (false, opts,
             [ErrMsg.comboExclusive cmd (enum_to_str opts.status_cmd)
                (enum_to_str (str_to_enum w))]) := by
          simp [set_status_cmd, hcur]
        rw [hset] at h
        simp at h

theorem resolve_error_no_argCount (cmd : String) (opts : status_cmd_opts_t)
    (argv1 : String) (lf : List String) (r : BuiltinResult)
    (c s : String) (k n : Nat)
    (h : resolve_subcommand cmd opts argv1 lf = Except.error r) :
    ErrMsg.argCount2 c s k n ∉ r.err := by
  cases lf with
  | nil => simp [resolve_subcommand] at h
  | cons w rest =>
    simp only [resolve_subcommand] at h
    by_cases hw : str_to_enum w = STATUS_UNDEF
    · rw [if_neg (by simpa using hw)] at h
      simp only [Except.error.injEq] at h
      rw [← h]
      simp
    · rw [if_pos (by simpa using hw)] at h
      by_cases hcur : opts.status_cmd = STATUS_UNDEF
      · have hset : set_status_cmd cmd opts (str_to_enum w) =
            (true, { opts with status_cmd := str_to_enum w }, []) := by
          simp [set_status_cmd, hcur]
        rw [hset] at h
        simp at h
      · have hset : set_status_cmd cmd opts (str_to_enum w) =
            (false, opts,
             [ErrMsg.comboExclusive cmd (enum_to_str opts.status_cmd)
                (enum_to_str (str_to_enum w))]) := by
          simp [set_status_cmd, hcur]
        rw [hset] at h
        simp only [Except.error.injEq] at h
        rw [← h]
        simp

theorem dispatch_no_default_argCount (env : Env) (cmd : String)
    (lv : Int) (jc : Option job_control_t) (sc : status_cmd_t) (ph : Bool)
    (args : List String) (c : String) (n : Nat)
    (hca : sc ≠ STATUS_UNDEF ∨ args = []) :
    ErrMsg.argCount2 c "default" 0 n ∉
      (dispatch env cmd ⟨lv, jc, sc, ph⟩ args).err := by
  cases sc
  case STATUS_UNDEF =>
    rcases hca with h | h
    · exact absurd rfl h
    · subst h
      simp [dispatch]
  case STATUS_SET_JOB_CONTROL =>
    rcases jc with _ | m <;> dsimp only [dispatch]
    · -- word form
      split
      · simp
      · split
        · rename_i errs heq
          dsimp only
          rw [job_mode_none_errs _ _ _ heq]
          simp
        · rename_i m errs heq
          dsimp only
          rw [job_mode_some_errs _ _ _ _ heq]
          simp
    · -- flag form
      split
      · exact argCount_default_not_mem_unexpected _ _ _ _ _ (by decide)
      · simp
  case STATUS_TEST_FEATURE =>
    dsimp only [dispatch]
    split
    · simp
    · simp
  case STATUS_FEATURES => simp [dispatch]
  all_goals
    dsimp only [dispatch]
    split
  all_goals first
    | exact argCount_default_not_mem_unexpected _ _ _ _ _ (by decide)
    | ((repeat' split) <;> simp)

/-- C10: (a) whenever first-word resolution hands control to the dispatcher
with the action still `STATUS_UNDEF`, the leftover positional list is empty;
(b) consequently the Undefined case's unexpected-argument-count error — the
only one formatted with the "default" placeholder name — is unreachable: no
invocation ever emits it. -/
theorem C10_undef_branch_unreachable :
    (∀ (cmd : String) (opts : status_cmd_opts_t) (argv1 : String)
       (lf : List String) (opts' : status_cmd_opts_t) (args : List String),
       resolve_subcommand cmd opts argv1 lf = Except.ok (opts', args) →
       opts'.status_cmd = STATUS_UNDEF → args = []) ∧
    (∀ (env : Env) (argv : List String) (c : String) (n : Nat),
       ErrMsg.argCount2 c "default" 0 n ∉ (builtin_status env argv).err) := by
  constructor
  · intro cmd opts argv1 lf opts' args h hu
    rcases resolve_ok_cases cmd opts argv1 lf opts' args h with ⟨_, ha⟩ | hne
    · exact ha
    · exact absurd hu hne
  · intro env argv c n
    unfold builtin_status
    dsimp only
    split
    · exact parse_no_argCount _ _ _ _ _ _ _
    · split
      · exact parse_no_argCount _ _ _ _ _ _ _
      · split
        · rename_i r heq
          dsimp only
          intro hmem
          rcases List.mem_append.mp hmem with hm | hm
          · exact parse_no_argCount _ _ _ _ _ _ _ hm
          · exact resolve_error_no_argCount _ _ _ _ _ _ _ _ _ heq hm
        · rename_i opts2 args2 heq
          dsimp only
          intro hmem
          rcases List.mem_append.mp hmem with hm | hm
          · exact parse_no_argCount _ _ _ _ _ _ _ hm
          · have hca :
                opts2.status_cmd ≠ STATUS_UNDEF ∨ args2 = [] := by
              rcases resolve_ok_cases _ _ _ _ opts2 args2 heq with
                ⟨_, ha⟩ | hne
              · exact Or.inr ha
              · exact Or.inl hne
            exact dispatch_no_default_argCount env (argv.headD "") opts2.level
              opts2.new_job_control_mode opts2.status_cmd opts2.print_help args2 c n hca hm

/-- Witness for C10's first conjunct at a concrete resolution. -/
theorem C10_undef_branch_unreachable_witness :
    resolve_subcommand "status" ({} : status_cmd_opts_t) "" [] =
      Except.ok (({} : status_cmd_opts_t), ([] : List String)) ∧
    ({} : status_cmd_opts_t).status_cmd = STATUS_UNDEF ∧
    ([] : List String) = [] :=
  ⟨rfl, rfl,
   C10_undef_branch_unreachable.1 "status" {} "" [] {} [] rfl rfl⟩

/-- A concrete environment used to instantiate universally quantified
theorems on specific inputs. -/
def env0 : Env where
  login := true
  job_control_mode := job_control_t.interactive
  interactive_session := true
  is_subshell := false
  is_block := false
  is_breakpoint := false
  current_filename := Option.none
  get_function_name := fun _ => Option.none
  lineno := 5
  stack_trace := "TRACE"
  status_var_command := "cv"
  status_var_commandline := "cl"
  program_name := "fish"
  features := [⟨"abc", true, "g", "da"⟩, ⟨"xyz", false, "g", "db"⟩]
  executable_path := "/bin/fish"
  realpath := fun s => Option.some s
  waccess := fun _ => 0
  wdirname := fun s => "DIR:" ++ s
  wbasename := fun s => "BASE:" ++ s

/-- C2: whenever an invocation requests two (distinct) actions — two action
flags, or an action flag followed by a resolvable subcommand word — the
command fails with the exclusive-subcommand-conflict error naming both
actions by their canonical display names (`enum_to_str`), returns the
command-error exit code, and never calls `set_job_control_mode`. -/
theorem C2_exclusive_conflict (env : Env) (argv : List String)
    (a b : status_cmd_t) (hc : statusConflict argv = Option.some (a, b))
    (hab : a ≠ b) :
    (builtin_status env argv).retval = STATUS_CMD_ERROR ∧
    (builtin_status env argv).err =
      [ErrMsg.comboExclusive (argv.headD "") (enum_to_str a) (enum_to_str b)] ∧
    (builtin_status env argv).jc_write = Option.none := by
  unfold statusConflict at hc
  dsimp only at hc
  cases hff : firstFlagConflict (argv.headD "") STATUS_UNDEF (lexArgs argv.tail).1 with
  | some p =>
    rw [hff] at hc
    dsimp only at hc
    have hp : p = (a, b) := by simpa using hc
    subst hp
    have hcp := conflict_parse (argv.headD "") (lexArgs argv.tail).1
      ({} : status_cmd_opts_t) a b hff
    have hneq : (parse_cmd_opts (argv.headD "") ({} : status_cmd_opts_t)
        (lexArgs argv.tail).1).1 ≠ STATUS_CMD_OK := by
      rw [hcp.1]; decide
    unfold builtin_status
    dsimp only
    rw [if_pos hneq]
    exact ⟨hcp.1, hcp.2, rfl⟩
  | none =>
    rw [hff] at hc
    dsimp only at hc
    by_cases hok : (parse_cmd_opts (argv.headD "") ({} : status_cmd_opts_t)
        (lexArgs argv.tail).1).1 = STATUS_CMD_OK ∧
        (parse_cmd_opts (argv.headD "") ({} : status_cmd_opts_t)
          (lexArgs argv.tail).1).2.1.print_help = false
    · rw [if_pos hok] at hc
      cases hlf : (lexArgs argv.tail).2 with
      | nil =>
        rw [hlf] at hc
        simp at hc
      | cons w rest =>
        rw [hlf] at hc
        dsimp only at hc
        by_cases hww : str_to_enum w ≠ STATUS_UNDEF ∧
            (parse_cmd_opts (argv.headD "") ({} : status_cmd_opts_t)
              (lexArgs argv.tail).1).2.1.status_cmd ≠ STATUS_UNDEF
        · rw [if_pos hww] at hc
          have hpq : (parse_cmd_opts (argv.headD "") ({} : status_cmd_opts_t)
              (lexArgs argv.tail).1).2.1.status_cmd = a ∧ str_to_enum w = b := by
            simpa using hc
          have hes := parse_ok_errs (argv.headD "") (lexArgs argv.tail).1 {} hok.1
          have hset : set_status_cmd (argv.headD "")
              ((parse_cmd_opts (argv.headD "") ({} : status_cmd_opts_t)
                (lexArgs argv.tail).1).2.1) (str_to_enum w) =
              (false,
               (parse_cmd_opts (argv.headD "") ({} : status_cmd_opts_t)
                 (lexArgs argv.tail).1).2.1,
               [ErrMsg.comboExclusive (argv.headD "")
                 (enum_to_str ((parse_cmd_opts (argv.headD "")
                   ({} : status_cmd_opts_t) (lexArgs argv.tail).1).2.1.status_cmd))
                 (enum_to_str (str_to_enum w))]) := by
            unfold set_status_cmd
            rw [if_pos hww.2]
          have hne1 : ¬((parse_cmd_opts (argv.headD "") ({} : status_cmd_opts_t)
              (lexArgs argv.tail).1).1 ≠ STATUS_CMD_OK) := by rw [hok.1]; simp
          have hne2 : ¬((parse_cmd_opts (argv.headD "") ({} : status_cmd_opts_t)
              (lexArgs argv.tail).1).2.1.print_help = true) := by rw [hok.2]; simp
          unfold builtin_status
          dsimp only
          rw [if_neg hne1, if_neg hne2, hlf]
          simp only [resolve_subcommand]
          rw [if_pos (show str_to_enum w ≠ STATUS_UNDEF from hww.1), hset]
          dsimp only
          rw [hes, hpq.1, hpq.2]
          exact ⟨rfl, by simp, rfl⟩
        · rw [if_neg hww] at hc
          exact absurd hc (by simp)
    · rw [if_neg hok] at hc
      exact absurd hc (by simp)

/-- Witness for C2 at `status -l -i` (two conflicting flags). -/
theorem C2_exclusive_conflict_witness :
    statusConflict ["status", "-l", "-i"] =
      Option.some (STATUS_IS_LOGIN, STATUS_IS_INTERACTIVE) ∧
    STATUS_IS_LOGIN ≠ STATUS_IS_INTERACTIVE ∧
    ((builtin_status env0 ["status", "-l", "-i"]).retval = STATUS_CMD_ERROR ∧
     (builtin_status env0 ["status", "-l", "-i"]).err =
       [ErrMsg.comboExclusive "status" (enum_to_str STATUS_IS_LOGIN)
         (enum_to_str STATUS_IS_INTERACTIVE)] ∧
     (builtin_status env0 ["status", "-l", "-i"]).jc_write = Option.none) :=
  ⟨rfl, by decide,
   C2_exclusive_conflict env0 ["status", "-l", "-i"] STATUS_IS_LOGIN
     STATUS_IS_INTERACTIVE rfl (by decide)⟩

/-- C4: the job-control mode parser maps exactly "full" to All, "interactive"
to Interactive and "none" to None, and on any other token returns no mode and
emits an invalid-job-control-mode error carrying that token. -/
theorem C4_job_control_codec (cmd : String) :
    job_control_str_to_mode "full" cmd = (Option.some job_control_t.all, []) ∧
    job_control_str_to_mode "interactive" cmd =
      (Option.some job_control_t.interactive, []) ∧
    job_control_str_to_mode "none" cmd = (Option.some job_control_t.none, []) ∧
    ∀ tok : String, tok ∉ (["full", "interactive", "none"] : List String) →
      job_control_str_to_mode tok cmd =
        (Option.none, [ErrMsg.invalidJobMode cmd tok]) := by
  refine ⟨rfl, rfl, rfl, ?_⟩
  intro tok h
  simp only [List.mem_cons, List.not_mem_nil, or_false, not_or] at h
  obtain ⟨h1, h2, h3⟩ := h
  simp [job_control_str_to_mode, h1, h2, h3]

/-- Witness for C4 at concrete tokens. -/
theorem C4_job_control_codec_witness :
    ("bogus" : String) ∉ (["full", "interactive", "none"] : List String) ∧
    job_control_str_to_mode "bogus" "status" =
      (Option.none, [ErrMsg.invalidJobMode "status" "bogus"]) :=
  ⟨by decide, (C4_job_control_codec "status").2.2.2 "bogus" (by decide)⟩

/-- C7: the alias table is strictly increasing by name, no name appears
twice, and exact-match lookup returns the table's action for every listed
alias and `STATUS_UNDEF` for every string not in the table. -/
theorem C7_alias_table :
    List.Pairwise (fun a b : status_cmd_t × String => a.2 < b.2) status_enum_map ∧
    (status_enum_map.map Prod.snd).Nodup ∧
    (∀ e ∈ status_enum_map, str_to_enum e.2 = e.1) ∧
    (∀ s : String, (∀ e ∈ status_enum_map, e.2 ≠ s) →
      str_to_enum s = STATUS_UNDEF) := by
  refine ⟨List.Pairwise.imp (fun h => String.lt_iff_toList_lt.mpr h)
    (by decide :
      List.Pairwise (fun a b : status_cmd_t × String => a.2.toList < b.2.toList)
        status_enum_map), by decide, by decide, ?_⟩
  intro s h
  have hf : status_enum_map.find? (fun e => e.2 = s) = Option.none :=
    List.find?_eq_none.mpr (fun e he => by simpa using h e he)
  simp [str_to_enum, hf]

/-- Witness for C7 at a concrete unlisted string. -/
theorem C7_alias_table_witness :
    (∀ e ∈ status_enum_map, e.2 ≠ "bogus") ∧
    str_to_enum "bogus" = STATUS_UNDEF :=
  ⟨by decide, C7_alias_table.2.2.2 "bogus" (by decide)⟩

/-- C1: evaluation of the fish-path action at inputs where canonicalization
and the access check both succeed.  The source tests
`if (real && waccess(*real, F_OK))` — but `waccess` returns 0 on success —
so the canonicalized path is printed exactly when the access check FAILS,
and the uncanonicalized absolute path is printed when canonicalization and
the access check both succeed, contradicting the claim (and the code's own
"realpath did not work" comment on the fallback branch). -/
theorem C1_fish_path_eval :
    (builtin_status
        { env0 with
            executable_path := "/usr/local/../bin/fish",
            realpath := fun _ => Option.some "/bin/fish",
            waccess := fun _ => 0 }
        ["status", "fish-path"]).out = ["/usr/local/../bin/fish", "\n"] ∧
    (builtin_status
        { env0 with
            executable_path := "/usr/local/../bin/fish",
            realpath := fun _ => Option.some "/bin/fish",
            waccess := fun _ => 1 }
        ["status", "fish-path"]).out = ["/bin/fish", "\n"] :=
  ⟨rfl, rfl⟩

/-- C8: the level flag's value: a value parsing to a negative integer yields
the invalid-level-value error, a non-numeric value yields the not-a-number
error (both with the invalid-argument status), and a valid non-negative
value is stored in the options record unchanged. -/
theorem C8_level_flag (cmd : String) (opts : status_cmd_opts_t) (arg : String)
    (v : Int) :
    (fish_wcstoi arg = (v, ConvErr.ok) → v < 0 →
      parse_cmd_opts cmd opts [OptEvent.shortOpt 'L' (Option.some arg)] =
        (STATUS_INVALID_ARGS, opts, [ErrMsg.invalidLevel cmd arg])) ∧
    (fish_wcstoi arg = (0, ConvErr.einval) →
      parse_cmd_opts cmd opts [OptEvent.shortOpt 'L' (Option.some arg)] =
        (STATUS_INVALID_ARGS, opts, [ErrMsg.notANumber cmd arg])) ∧
    (fish_wcstoi arg = (v, ConvErr.ok) → 0 ≤ v →
      parse_cmd_opts cmd opts [OptEvent.shortOpt 'L' (Option.some arg)] =
        (STATUS_CMD_OK, { opts with level := v }, [])) := by
  refine ⟨?_, ?_, ?_⟩
  · intro h hneg
    have hstep : parse_step cmd opts (OptEvent.shortOpt 'L' (Option.some arg)) =
        StepRes.abort STATUS_INVALID_ARGS opts [ErrMsg.invalidLevel cmd arg] := by
      simp [parse_step, h, hneg]
    simp [parse_cmd_opts, hstep]
  · intro h
    have hstep : parse_step cmd opts (OptEvent.shortOpt 'L' (Option.some arg)) =
        StepRes.abort STATUS_INVALID_ARGS opts [ErrMsg.notANumber cmd arg] := by
      simp [parse_step, h]
    simp [parse_cmd_opts, hstep]
  · intro h hnn
    have hnn' : ¬ v < 0 := not_lt.mpr hnn
    have hstep : parse_step cmd opts (OptEvent.shortOpt 'L' (Option.some arg)) =
        StepRes.cont { opts with level := v } [] := by
      simp [parse_step, h, hnn']
    simp [parse_cmd_opts, hstep]

/-- Witness for C8 at the concrete values "-3", "abc" and "7". -/
theorem C8_level_flag_witness :
    (fish_wcstoi "-3" = (-3, ConvErr.ok) ∧ (-3 : Int) < 0 ∧
      parse_cmd_opts "status" {} [OptEvent.shortOpt 'L' (Option.some "-3")] =
        (STATUS_INVALID_ARGS, {}, [ErrMsg.invalidLevel "status" "-3"])) ∧
    (fish_wcstoi "abc" = (0, ConvErr.einval) ∧
      parse_cmd_opts "status" {} [OptEvent.shortOpt 'L' (Option.some "abc")] =
        (STATUS_INVALID_ARGS, {}, [ErrMsg.notANumber "status" "abc"])) ∧
    (fish_wcstoi "7" = (7, ConvErr.ok) ∧ (0 : Int) ≤ 7 ∧
      parse_cmd_opts "status" {} [OptEvent.shortOpt 'L' (Option.some "7")] =
        (STATUS_CMD_OK, { level := 7 }, [])) :=
  ⟨⟨by decide, by decide,
    (C8_level_flag "status" {} "-3" (-3)).1 (by decide) (by decide)⟩,
   ⟨by decide, (C8_level_flag "status" {} "abc" 0).2.1 (by decide)⟩,
   ⟨by decide, by decide,
    (C8_level_flag "status" {} "7" 7).2.2 (by decide) (by decide)⟩⟩

/-- C6: the bare word `is-login`, the long flag `--is-login` and the short
flag `-l` behave identically: no output, no error, no job-control mutation,
and exit code 0 exactly when the session is a login session. -/
theorem C6_is_login_equiv (env : Env) :
    builtin_status env ["status", "is-login"] =
      builtin_status env ["status", "--is-login"] ∧
    builtin_status env ["status", "is-login"] =
      builtin_status env ["status", "-l"] ∧
    builtin_status env ["status", "is-login"] =
      ⟨if env.login then 0 else 1, [], [], Option.none⟩ := by
  refine ⟨rfl, rfl, ?_⟩
  cases env with
  | mk lg jcm is isub ib ibp cf gfn ln st svc svcl pn fs ep rp wa wd wb =>
    cases lg <;> rfl

/-- C3 counterexample: with flags preceding the unrecognized word, the error
message reports `argv[1]` (here the flag token "-L"), not the offending word
"bogus", refuting the claim that the reported token is the word itself. -/
theorem C3_counterexample :
    (builtin_status env0 ["status", "-L", "1", "bogus"]).err =
      [ErrMsg.invalidSubcmd "status" "-L"] ∧
    (builtin_status env0 ["status", "-L", "1", "bogus"]).retval =
      STATUS_INVALID_ARGS ∧
    ("-L" : String) ≠ "bogus" :=
  ⟨rfl, rfl, by decide⟩

/-- C3 (amended): when flag scanning succeeds without requesting help and the
first leftover word is not in the alias table, the command reports an
unrecognized-subcommand error identifying `argv[1]` — which is the offending
word exactly when no flags precede it — and exits with the invalid-argument
code. -/
theorem C3_unrecognized_word (env : Env) (argv : List String) (w : String)
    (lf : List String)
    (hlf : (lexArgs argv.tail).2 = w :: lf)
    (hok : (parse_cmd_opts (argv.headD "") ({} : status_cmd_opts_t)
      (lexArgs argv.tail).1).1 = STATUS_CMD_OK)
    (hhelp : (parse_cmd_opts (argv.headD "") ({} : status_cmd_opts_t)
      (lexArgs argv.tail).1).2.1.print_help = false)
    (hw : str_to_enum w = STATUS_UNDEF) :
    builtin_status env argv =
      ⟨STATUS_INVALID_ARGS, [],
       [ErrMsg.invalidSubcmd (argv.headD "") (argv.getD 1 "")], Option.none⟩ := by
  have hes := parse_ok_errs (argv.headD "") (lexArgs argv.tail).1 {} hok
  unfold builtin_status
  dsimp only
  rw [hok, hhelp, hlf, hes]
  simp [resolve_subcommand, hw]

/-- Witness for C3's amended theorem at `status bogus` (no flags, so the
reported token coincides with the word). -/
theorem C3_unrecognized_word_witness :
    (lexArgs (["status", "bogus"] : List String).tail).2 = ["bogus"] ∧
    str_to_enum "bogus" = STATUS_UNDEF ∧
    builtin_status env0 ["status", "bogus"] =
      ⟨STATUS_INVALID_ARGS, [], [ErrMsg.invalidSubcmd "status" "bogus"],
       Option.none⟩ :=
  ⟨rfl, rfl, C3_unrecognized_word env0 ["status", "bogus"] "bogus" [] rfl rfl rfl rfl⟩

theorem testFeatureRet_mem (l : List FeatureMd) (n : String)
    (hnd : (l.map FeatureMd.name).Nodup) (md : FeatureMd) (hm : md ∈ l)
    (hname : md.name = n) :
    testFeatureRet l n = (if md.enabled then 0 else 1) := by
  induction l with
  | nil => cases hm
  | cons hd tl ih =>
    simp only [List.map_cons, List.nodup_cons] at hnd
    rcases List.mem_cons.mp hm with rfl | hmem
    · simp [testFeatureRet, hname]
    · have hin : n ∈ tl.map FeatureMd.name :=
        hname ▸ List.mem_map_of_mem FeatureMd.name hmem
      have hne : hd.name ≠ n := fun he => hnd.1 (he ▸ hin)
      simp only [testFeatureRet, hne, if_neg, if_false]
      exact ih hnd.2 hmem

theorem testFeatureRet_not_mem (l : List FeatureMd) (n : String)
    (h : ∀ md ∈ l, md.name ≠ n) : testFeatureRet l n = 2 := by
  induction l with
  | nil => rfl
  | cons hd tl ih =>
    simp only [testFeatureRet, h hd (List.mem_cons_self hd tl), if_neg, if_false]
    exact ih (fun md hm => h md (List.mem_cons_of_mem _ hm))

/-- C5: with a unique-name feature registry, the test-feature action with one
positional argument exits 0 on an enabled feature of that exact name, 1 on a
disabled one, 2 on an unregistered name; any other positional count fails
with the argument-count error (expected 1, actual count) and the
invalid-argument code. -/
theorem C5_test_feature (env : Env) (name : String)
    (hnd : (env.features.map FeatureMd.name).Nodup) :
    ((∃ md ∈ env.features, md.name = name ∧ md.enabled = true) →
      (builtin_status env ["status", "test-feature", name]).retval = 0) ∧
    ((∃ md ∈ env.features, md.name = name ∧ md.enabled = false) →
      (builtin_status env ["status", "test-feature", name]).retval = 1) ∧
    ((∀ md ∈ env.features, md.name ≠ name) →
      (builtin_status env ["status", "test-feature", name]).retval = 2) ∧
    (∀ args : List String, args.length ≠ 1 →
      builtin_status env ("status" :: "test-feature" :: args) =
        ⟨STATUS_INVALID_ARGS, [],
         [ErrMsg.argCount2 "status" "test-feature" 1 args.length],
         Option.none⟩) := by
  have key : ∀ nm : String, builtin_status env ["status", "test-feature", nm] =
      ⟨testFeatureRet env.features nm, [], [], Option.none⟩ := fun nm => rfl
  refine ⟨?_, ?_, ?_, ?_⟩
  · rintro ⟨md, hm, hname, hen⟩
    rw [key]
    simpa [hen] using testFeatureRet_mem env.features name hnd md hm hname
  · rintro ⟨md, hm, hname, hen⟩
    rw [key]
    simpa [hen] using testFeatureRet_mem env.features name hnd md hm hname
  · intro h
    rw [key]
    exact testFeatureRet_not_mem env.features name h
  · intro args hlen
    have e1 : builtin_status env ("status" :: "test-feature" :: args) =
        (if args.length ≠ 1 then
          ⟨STATUS_INVALID_ARGS, [],
           [ErrMsg.argCount2 "status" "test-feature" 1 args.length], Option.none⟩
        else
          ⟨testFeatureRet env.features (args.headD ""), [], [], Option.none⟩) := rfl
    rw [e1, if_pos hlen]

/-- Witness for C5 at the concrete registry of `env0`. -/
theorem C5_test_feature_witness :
    (env0.features.map FeatureMd.name).Nodup ∧
    (∃ md ∈ env0.features, md.name = "abc" ∧ md.enabled = true) ∧
    (builtin_status env0 ["status", "test-feature", "abc"]).retval = 0 ∧
    (∃ md ∈ env0.features, md.name = "xyz" ∧ md.enabled = false) ∧
    (builtin_status env0 ["status", "test-feature", "xyz"]).retval = 1 ∧
    (∀ md ∈ env0.features, md.name ≠ "zzz") ∧
    (builtin_status env0 ["status", "test-feature", "zzz"]).retval = 2 ∧
    builtin_status env0 ["status", "test-feature"] =
      ⟨STATUS_INVALID_ARGS, [], [ErrMsg.argCount2 "status" "test-feature" 1 0],
       Option.none⟩ :=
  ⟨by decide,
   ⟨⟨"abc", true, "g", "da"⟩, by decide, rfl, rfl⟩,
   (C5_test_feature env0 "abc" (by decide)).1
     ⟨⟨"abc", true, "g", "da"⟩, by decide, rfl, rfl⟩,
   ⟨⟨"xyz", false, "g", "db"⟩, by decide, rfl, rfl⟩,
   (C5_test_feature env0 "xyz" (by decide)).2.1
     ⟨⟨"xyz", false, "g", "db"⟩, by decide, rfl, rfl⟩,
   by decide,
   (C5_test_feature env0 "zzz" (by decide)).2.2.1 (by decide),
   (C5_test_feature env0 "zzz" (by decide)).2.2.2 [] (by decide)⟩

/-- C9: whenever flag scanning succeeds with the help flag recorded, the
command prints help and returns success without dispatching any action: no
job-control mutation, no error output, and no validation of leftover words. -/
theorem C9_help_flag (env : Env) (argv : List String)
    (hok : (parse_cmd_opts (argv.headD "") ({} : status_cmd_opts_t)
      (lexArgs argv.tail).1).1 = STATUS_CMD_OK)
    (hh : (parse_cmd_opts (argv.headD "") ({} : status_cmd_opts_t)
      (lexArgs argv.tail).1).2.1.print_help = true) :
    builtin_status env argv =
      ⟨STATUS_CMD_OK, [statusHelpText], [], Option.none⟩ := by
  have hes := parse_ok_errs (argv.headD "") (lexArgs argv.tail).1 {} hok
  unfold builtin_status
  dsimp only
  rw [hok, hh, hes]
  simp

/-- Witness for C9 at `status -h -l junk`: an action flag and a stray word
are both present, yet the result is exactly help output with exit 0. -/
theorem C9_help_flag_witness :
    (parse_cmd_opts "status" ({} : status_cmd_opts_t)
      (lexArgs (["status", "-h", "-l", "junk"] : List String).tail).1).1 =
        STATUS_CMD_OK ∧
    (parse_cmd_opts "status" ({} : status_cmd_opts_t)
      (lexArgs (["status", "-h", "-l", "junk"] : List String).tail).1).2.1.print_help =
        true ∧
    builtin_status env0 ["status", "-h", "-l", "junk"] =
      ⟨STATUS_CMD_OK, [statusHelpText], [], Option.none⟩ :=
  ⟨rfl, rfl, C9_help_flag env0 ["status", "-h", "-l", "junk"] rfl rfl⟩

end StatusBuiltin
